import Mathlib

/-!
Shallow embedding of `amplify/custom/pipeline/resource.ts` from the
amplify-vite-react-custom-pipeline repository.

The TypeScript module assembles, at synthesis time, an in-memory
description of cloud resources: `defineFrontend` declares an S3 bucket
and a CloudFront distribution, `definePipeline` declares two CodeBuild
projects and a three-stage CodePipeline.  We embed those configuration
records as Lean structures and the two definition functions as pure
Lean functions producing them.  Provider-assigned attributes (the
deployed bucket name, the distribution domain name and id, the account)
are unknown at synthesis time; the CDK represents them as tokens.  We
model them as fields of the `Stack` value, i.e. as parameters the
embedding is universally quantified over.
-/

namespace AmplifyPipeline

/-- Removal policies (`aws-cdk-lib` `RemovalPolicy`). -/
inductive RemovalPolicy
  | DESTROY
  | RETAIN
deriving DecidableEq, Repr

/-- Public-access blocking modes (`aws-s3` `BlockPublicAccess`). -/
inductive BlockPublicAccess
  | BLOCK_ALL
  | BLOCK_ACLS
deriving DecidableEq, Repr

/-- Properties passed to the `s3.Bucket` constructor at
`resource.ts:30-35`. -/
structure BucketProps where
  bucketName : Option String
  blockPublicAccess : BlockPublicAccess
  removalPolicy : RemovalPolicy
  autoDeleteObjects : Bool
deriving DecidableEq, Repr

/-- A declared S3 bucket: its constructor properties together with the
`bucketName` attribute (a deploy-time token in the CDK). -/
structure Bucket where
  props : BucketProps
  bucketName : String
deriving DecidableEq, Repr

/-- Viewer protocol policies (`aws-cloudfront` `ViewerProtocolPolicy`). -/
inductive ViewerProtocolPolicy
  | REDIRECT_TO_HTTPS
  | ALLOW_ALL
deriving DecidableEq, Repr

/-- An origin for a distribution behavior; `resource.ts:39` uses
`S3BucketOrigin.withOriginAccessControl(bucket)`. -/
structure Origin where
  bucket : Bucket
  withOriginAccessControl : Bool
deriving DecidableEq, Repr

/-- The `defaultBehavior` record of the distribution
(`resource.ts:38-41`). -/
structure DefaultBehavior where
  origin : Origin
  viewerProtocolPolicy : ViewerProtocolPolicy
deriving DecidableEq, Repr

/-- One entry of the distribution `errorResponses` list
(`resource.ts:44-48`). -/
structure ErrorResponse where
  httpStatus : Nat
  responseHttpStatus : Nat
  responsePagePath : String
deriving DecidableEq, Repr

/-- Properties passed to the `cloudfront.Distribution` constructor at
`resource.ts:37-50`. -/
structure DistributionProps where
  defaultBehavior : DefaultBehavior
  defaultRootObject : String
  errorResponses : List ErrorResponse
deriving DecidableEq, Repr

/-- A declared CloudFront distribution: constructor properties together
with its provider-assigned attributes (deploy-time tokens in the CDK). -/
structure Distribution where
  props : DistributionProps
  distributionDomainName : String
  distributionId : String
deriving DecidableEq, Repr

/-- The stack a definition function runs against.  Besides the account,
it carries the deploy-time attribute tokens the CDK would hand out for
the (single) bucket and distribution declared in it. -/
structure Stack where
  account : String
  bucketNameAttr : String
  distributionDomainNameAttr : String
  distributionIdAttr : String
deriving DecidableEq, Repr

/-- `FrontendProps` from `resource.ts:15-18`. -/
structure FrontendProps where
  bucketName : Option String
deriving DecidableEq, Repr

/-- `FrontendOutput` from `resource.ts:20-24`. -/
structure FrontendOutput where
  bucket : Bucket
  distribution : Distribution
  url : String
deriving DecidableEq, Repr

/-- A `CfnOutput` declaration: logical name and value. -/
structure CfnOutput where
  name : String
  value : String
deriving DecidableEq, Repr

/-- Everything `defineFrontend` declares: its return value plus the
`CfnOutput`s it registers on the stack. -/
structure FrontendResult where
  output : FrontendOutput
  cfnOutputs : List CfnOutput
deriving DecidableEq, Repr

/-- `defineFrontend` (`resource.ts:29-58`): declares the hosting bucket,
the distribution fronting it, derives the URL and publishes two
outputs. -/
def defineFrontend (stack : Stack) (props : Option FrontendProps) : FrontendResult :=
  let bucket : Bucket :=
    { props :=
        { bucketName := props.bind (fun p => p.bucketName)
          blockPublicAccess := BlockPublicAccess.BLOCK_ALL
          removalPolicy := RemovalPolicy.DESTROY
          autoDeleteObjects := true }
      bucketName := stack.bucketNameAttr }
  let distribution : Distribution :=
    { props :=
        { defaultBehavior :=
            { origin := { bucket := bucket, withOriginAccessControl := true }
              viewerProtocolPolicy := ViewerProtocolPolicy.REDIRECT_TO_HTTPS }
          defaultRootObject := "index.html"
          errorResponses :=
            [ { httpStatus := 404
                responseHttpStatus := 200
                responsePagePath := "/index.html" } ] }
      distributionDomainName := stack.distributionDomainNameAttr
      distributionId := stack.distributionIdAttr }
  let url := "https://" ++ distribution.distributionDomainName
  { output := { bucket := bucket, distribution := distribution, url := url }
    cfnOutputs :=
      [ { name := "CloudFrontURL", value := url }
      , { name := "BucketName", value := bucket.bucketName } ] }

/-- An IAM policy statement (`iam.PolicyStatement`). -/
structure PolicyStatement where
  actions : List String
  resources : List String
deriving DecidableEq, Repr

/-- CodeBuild images (`codebuild.LinuxBuildImage`). -/
inductive LinuxBuildImage
  | STANDARD_7_0
deriving DecidableEq, Repr

/-- CodeBuild compute types (`codebuild.ComputeType`). -/
inductive ComputeType
  | MEDIUM
deriving DecidableEq, Repr

/-- The `environment` record of a `PipelineProject`. -/
structure BuildEnvironment where
  buildImage : LinuxBuildImage
  computeType : ComputeType
deriving DecidableEq, Repr

/-- One phase of a build spec: optional runtime versions plus the list
of shell commands. -/
structure BuildPhase where
  runtimeVersions : List (String × Nat)
  commands : List String
deriving DecidableEq, Repr

/-- A CodeBuild build spec as assembled by `BuildSpec.fromObject`:
version, the phases present, the artifact file list and the cache path
list (each absent when the source object omits the section). -/
structure BuildSpec where
  version : String
  install : Option BuildPhase
  preBuild : Option BuildPhase
  build : Option BuildPhase
  postBuild : Option BuildPhase
  artifactFiles : Option (List String)
  cachePaths : Option (List String)
deriving DecidableEq, Repr

/-- A CodeBuild `PipelineProject` declaration, with the role-policy
statements accumulated through `addToRolePolicy`. -/
structure PipelineProject where
  projectName : String
  environment : BuildEnvironment
  environmentVariables : List (String × String)
  buildSpec : BuildSpec
  rolePolicies : List PolicyStatement
deriving DecidableEq, Repr

/-- GitHub source triggers (`codepipeline_actions.GitHubTrigger`). -/
inductive GitHubTrigger
  | WEBHOOK
  | POLL
  | NONE
deriving DecidableEq, Repr

/-- The `GitHubSourceAction` of the `Source` stage
(`resource.ts:183-191`).  Artifacts are referred to by their names. -/
structure GitHubSourceAction where
  actionName : String
  owner : String
  repo : String
  branch : String
  oauthTokenSecretName : String
  output : String
  trigger : GitHubTrigger
deriving DecidableEq, Repr

/-- A `CodeBuildAction`: its project, primary input artifact, output
artifacts and extra input artifacts (by name). -/
structure CodeBuildAction where
  actionName : String
  project : PipelineProject
  input : String
  outputs : List String
  extraInputs : List String
deriving DecidableEq, Repr

/-- An action inside a pipeline stage. -/
inductive Action
  | source (a : GitHubSourceAction)
  | codeBuild (a : CodeBuildAction)
deriving DecidableEq, Repr

/-- A pipeline stage: name and ordered action list. -/
structure Stage where
  stageName : String
  actions : List Action
deriving DecidableEq, Repr

/-- A CodePipeline: name and ordered stage list (as built through
`addStage`). -/
structure Pipeline where
  pipelineName : String
  stages : List Stage
deriving DecidableEq, Repr

/-- `PipelineProps` from `resource.ts:65-78`. -/
structure PipelineProps where
  githubOwner : String
  githubRepo : String
  githubBranch : String
  githubTokenSecretName : String
  stackName : String
  frontend : FrontendOutput
deriving DecidableEq, Repr

/-- A record of a `bucket.grantReadWrite(grantee)` call: which bucket,
and the project name of the grantee. -/
structure BucketReadWriteGrant where
  bucket : Bucket
  granteeProjectName : String
deriving DecidableEq, Repr

/-- Everything `definePipeline` declares: the pipeline, the two build
projects, the bucket grants issued, and the `CfnOutput`s registered. -/
structure PipelineResult where
  pipeline : Pipeline
  backendProject : PipelineProject
  frontendProject : PipelineProject
  bucketGrants : List BucketReadWriteGrant
  cfnOutputs : List CfnOutput
deriving DecidableEq, Repr

/-- `definePipeline` (`resource.ts:88-217`): declares the backend and
frontend build projects, their role policies, the bucket grant, and the
three-stage pipeline. -/
def definePipeline (stack : Stack) (props : PipelineProps) : PipelineResult :=
  let sourceOutput := "SourceOutput"
  let backendOutput := "BackendOutput"
  let backendProject : PipelineProject :=
    { projectName := props.stackName ++ "-backend"
      environment :=
        { buildImage := LinuxBuildImage.STANDARD_7_0
          computeType := ComputeType.MEDIUM }
      environmentVariables :=
        [ ("BRANCH_NAME", props.githubBranch)
        , ("STACK_NAME", props.stackName) ]
      buildSpec :=
        { version := "0.2"
          install := some
            { runtimeVersions := [("nodejs", 20)]
              commands := ["npm ci", "npx ampx --version"] }
          preBuild := none
          build := some
            { runtimeVersions := []
              commands :=
                [ "echo \"Deploying backend with --custom-pipeline...\""
                , "npx ampx pipeline-deploy --branch $BRANCH_NAME --custom-pipeline --stack-name $STACK_NAME --outputs-out-dir . --outputs-format json"
                , "cat amplify_outputs.json" ] }
          postBuild := none
          artifactFiles := some ["amplify_outputs.json"]
          cachePaths := some ["node_modules/**/*"] }
      rolePolicies :=
        [ { actions :=
              [ "cloudformation:*", "iam:*", "cognito-idp:*", "appsync:*"
              , "dynamodb:*", "lambda:*", "s3:*", "ssm:*"
              , "secretsmanager:GetSecretValue", "logs:*", "sts:AssumeRole" ]
            resources := ["*"] } ] }
  let frontendProject : PipelineProject :=
    { projectName := props.stackName ++ "-frontend"
      environment :=
        { buildImage := LinuxBuildImage.STANDARD_7_0
          computeType := ComputeType.MEDIUM }
      environmentVariables :=
        [ ("BUCKET_NAME", props.frontend.bucket.bucketName)
        , ("DISTRIBUTION_ID", props.frontend.distribution.distributionId) ]
      buildSpec :=
        { version := "0.2"
          install := some
            { runtimeVersions := [("nodejs", 20)]
              commands := ["npm ci"] }
          preBuild := some
            { runtimeVersions := []
              commands :=
                [ "cp $CODEBUILD_SRC_DIR_BackendOutput/amplify_outputs.json ."
                , "cat amplify_outputs.json" ] }
          build := some
            { runtimeVersions := []
              commands := ["npm run build"] }
          postBuild := some
            { runtimeVersions := []
              commands :=
                [ "aws s3 sync dist/ s3://$BUCKET_NAME/ --delete"
                , "aws cloudfront create-invalidation --distribution-id $DISTRIBUTION_ID --paths \"/*\"" ] }
          artifactFiles := none
          cachePaths := none }
      rolePolicies :=
        [ { actions := ["cloudfront:CreateInvalidation"]
            resources :=
              [ "arn:aws:cloudfront::" ++ stack.account
                  ++ ":distribution/" ++ props.frontend.distribution.distributionId ] } ] }
  let pipeline : Pipeline :=
    { pipelineName := props.stackName ++ "-pipeline"
      stages :=
        [ { stageName := "Source"
            actions :=
              [ Action.source
                  { actionName := "GitHub"
                    owner := props.githubOwner
                    repo := props.githubRepo
                    branch := props.githubBranch
                    oauthTokenSecretName := props.githubTokenSecretName
                    output := sourceOutput
                    trigger := GitHubTrigger.WEBHOOK } ] }
        , { stageName := "DeployBackend"
            actions :=
              [ Action.codeBuild
                  { actionName := "Backend"
                    project := backendProject
                    input := sourceOutput
                    outputs := [backendOutput]
                    extraInputs := [] } ] }
        , { stageName := "DeployFrontend"
            actions :=
              [ Action.codeBuild
                  { actionName := "Frontend"
                    project := frontendProject
                    input := sourceOutput
                    outputs := []
                    extraInputs := [backendOutput] } ] } ] }
  { pipeline := pipeline
    backendProject := backendProject
    frontendProject := frontendProject
    bucketGrants :=
      [ { bucket := props.frontend.bucket
          granteeProjectName := frontendProject.projectName } ]
    cfnOutputs := [ { name := "PipelineName", value := pipeline.pipelineName } ] }

/-- Primary input artifact of an action, when it has one. -/
def Action.primaryInput : Action → Option String
  | .source _ => none
  | .codeBuild a => some a.input

/-- Extra input artifacts of an action. -/
def Action.extraInputList : Action → List String
  | .source _ => []
  | .codeBuild a => a.extraInputs

/-- Output artifacts of an action. -/
def Action.outputList : Action → List String
  | .source a => [a.output]
  | .codeBuild a => a.outputs

/-- Commands of the install phase of a project build spec (empty when
the phase is absent). -/
def installCommands (p : PipelineProject) : List String :=
  match p.buildSpec.install with
  | some ph => ph.commands
  | none => []

/-- A sample stack with concrete provider-assigned attribute tokens. -/
def sampleStack : Stack :=
  { account := "123456789012"
    bucketNameAttr := "frontend-bucket-token"
    distributionDomainNameAttr := "d1234abcd.cloudfront.net"
    distributionIdAttr := "E1DISTID" }

/-- The frontend descriptor produced on the sample stack. -/
def sampleFrontend : FrontendOutput :=
  (defineFrontend sampleStack none).output

/-- Concrete pipeline configuration with stackName acme-site. -/
def acmeProps : PipelineProps :=
  { githubOwner := "acme"
    githubRepo := "site"
    githubBranch := "main"
    githubTokenSecretName := "github-token"
    stackName := "acme-site"
    frontend := sampleFrontend }

/-- C1: for every valid pipeline configuration, the assembled pipeline
has exactly the three stages Source, DeployBackend, DeployFrontend in
that order, and each stage contains exactly one action. -/
theorem definePipeline_three_stages_one_action
    (stack : Stack) (props : PipelineProps) :
    ((definePipeline stack props).pipeline.stages.map Stage.stageName)
        = ["Source", "DeployBackend", "DeployFrontend"]
      ∧ ((definePipeline stack props).pipeline.stages.map
            (fun st => st.actions.length)) = [1, 1, 1] :=
  ⟨rfl, rfl⟩

/-- C2: for every valid pipeline configuration, the DeployFrontend
stage holds a single build action whose primary input is the source
artifact, whose extra inputs are exactly the backend output artifact,
and which declares no output artifact. -/
theorem definePipeline_frontend_action_wiring
    (stack : Stack) (props : PipelineProps) :
    ((definePipeline stack props).pipeline.stages[2]?).map
        (fun st => st.actions.map
          (fun a => (a.primaryInput, a.extraInputList, a.outputList)))
      = some [(some "SourceOutput", ["BackendOutput"], [])] :=
  rfl

/-- C3: for every input, the hosting bucket created by defineFrontend
blocks all public access, has the DESTROY removal policy and deletes
contained objects automatically on teardown. -/
theorem defineFrontend_bucket_locked_down
    (stack : Stack) (props : Option FrontendProps) :
    (defineFrontend stack props).output.bucket.props.blockPublicAccess
        = BlockPublicAccess.BLOCK_ALL
      ∧ (defineFrontend stack props).output.bucket.props.removalPolicy
        = RemovalPolicy.DESTROY
      ∧ (defineFrontend stack props).output.bucket.props.autoDeleteObjects
        = true :=
  ⟨rfl, rfl, rfl⟩

/-- C4: for every input, the distribution created by defineFrontend
declares exactly one error response, rewriting HTTP 404 to serve
/index.html with status 200. -/
theorem defineFrontend_single_spa_error_response
    (stack : Stack) (props : Option FrontendProps) :
    (defineFrontend stack props).output.distribution.props.errorResponses
      = [{ httpStatus := 404
           responseHttpStatus := 200
           responsePagePath := "/index.html" }] :=
  rfl

/-- C5: the backend build spec declares exactly the single artifact
file amplify_outputs.json, and the frontend build spec declares no
artifacts section. -/
theorem buildSpec_artifacts_asymmetry
    (stack : Stack) (props : PipelineProps) :
    (definePipeline stack props).backendProject.buildSpec.artifactFiles
        = some ["amplify_outputs.json"]
      ∧ (definePipeline stack props).frontendProject.buildSpec.artifactFiles
        = none :=
  ⟨rfl, rfl⟩

/-- C6: for every valid pipeline configuration, the frontend build
project is granted read/write on exactly the hosting bucket of the
frontend descriptor, and its added role policy allows
cloudfront:CreateInvalidation on exactly one resource, the ARN of the
descriptor's distribution, which is never the wildcard resource. -/
theorem frontendProject_least_privilege
    (stack : Stack) (props : PipelineProps) :
    (definePipeline stack props).bucketGrants
        = [{ bucket := props.frontend.bucket
             granteeProjectName := props.stackName ++ "-frontend" }]
      ∧ (definePipeline stack props).frontendProject.rolePolicies
        = [{ actions := ["cloudfront:CreateInvalidation"]
             resources :=
               [ "arn:aws:cloudfront::" ++ stack.account
                   ++ ":distribution/"
                   ++ props.frontend.distribution.distributionId ] }]
      ∧ ("arn:aws:cloudfront::" ++ stack.account ++ ":distribution/"
            ++ props.frontend.distribution.distributionId) ≠ "*" := by
  refine ⟨rfl, rfl, fun h => ?_⟩
  have hlen := congrArg String.length h
  rw [String.length_append, String.length_append, String.length_append] at hlen
  have e1 : ("arn:aws:cloudfront::" : String).length = 20 := rfl
  have e2 : (":distribution/" : String).length = 14 := rfl
  have e3 : ("*" : String).length = 1 := rfl
  rw [e1, e2, e3] at hlen
  omega

/-- C6 witness: the least-privilege property evaluated at a concrete
stack and configuration. -/
theorem frontendProject_least_privilege_witness :
    (definePipeline sampleStack acmeProps).bucketGrants
        = [{ bucket := acmeProps.frontend.bucket
             granteeProjectName := acmeProps.stackName ++ "-frontend" }]
      ∧ (definePipeline sampleStack acmeProps).frontendProject.rolePolicies
        = [{ actions := ["cloudfront:CreateInvalidation"]
             resources :=
               [ "arn:aws:cloudfront::" ++ sampleStack.account
                   ++ ":distribution/"
                   ++ acmeProps.frontend.distribution.distributionId ] }]
      ∧ ("arn:aws:cloudfront::" ++ sampleStack.account ++ ":distribution/"
            ++ acmeProps.frontend.distribution.distributionId) ≠ "*" :=
  frontendProject_least_privilege sampleStack acmeProps

/-- C7: with stackName acme-site (owner acme, repo site, branch main),
the backend project is named acme-site-backend, the frontend project
acme-site-frontend, and the pipeline acme-site-pipeline. -/
theorem acme_resource_names :
    (definePipeline sampleStack acmeProps).backendProject.projectName
        = "acme-site-backend"
      ∧ (definePipeline sampleStack acmeProps).frontendProject.projectName
        = "acme-site-frontend"
      ∧ (definePipeline sampleStack acmeProps).pipeline.pipelineName
        = "acme-site-pipeline" :=
  ⟨rfl, rfl, rfl⟩

/-- C8: running defineFrontend and definePipeline twice on identical
inputs yields identical configuration descriptions: the assembly is
deterministic. -/
theorem define_functions_deterministic
    (s₁ s₂ : Stack) (fp₁ fp₂ : Option FrontendProps)
    (pp₁ pp₂ : PipelineProps)
    (hs : s₁ = s₂) (hf : fp₁ = fp₂) (hp : pp₁ = pp₂) :
    defineFrontend s₁ fp₁ = defineFrontend s₂ fp₂
      ∧ definePipeline s₁ pp₁ = definePipeline s₂ pp₂ := by
  subst hs; subst hf; subst hp
  exact ⟨rfl, rfl⟩

/-- C8 witness: determinism instantiated at concrete inputs. -/
theorem define_functions_deterministic_witness :
    defineFrontend sampleStack none = defineFrontend sampleStack none
      ∧ definePipeline sampleStack acmeProps
        = definePipeline sampleStack acmeProps :=
  define_functions_deterministic sampleStack sampleStack none none
    acmeProps acmeProps rfl rfl rfl

/-- C9: for every input, the URL defineFrontend returns is https://
followed by the distribution domain name, and that URL is the value of
the CloudFrontURL named output. -/
theorem defineFrontend_url_shape
    (stack : Stack) (props : Option FrontendProps) :
    (defineFrontend stack props).output.url
        = "https://"
          ++ (defineFrontend stack props).output.distribution.distributionDomainName
      ∧ CfnOutput.mk "CloudFrontURL" ((defineFrontend stack props).output.url)
        ∈ (defineFrontend stack props).cfnOutputs :=
  ⟨rfl, by simp [defineFrontend]⟩

/-- C10: the backend build spec caches exactly node_modules, the
frontend build spec declares no cache, and both install phases run
npm ci. -/
theorem buildSpec_cache_asymmetry
    (stack : Stack) (props : PipelineProps) :
    (definePipeline stack props).backendProject.buildSpec.cachePaths
        = some ["node_modules/**/*"]
      ∧ (definePipeline stack props).frontendProject.buildSpec.cachePaths
        = none
      ∧ "npm ci" ∈ installCommands (definePipeline stack props).backendProject
      ∧ "npm ci" ∈ installCommands (definePipeline stack props).frontendProject :=
  ⟨rfl, rfl, by simp [definePipeline, installCommands],
    by simp [definePipeline, installCommands]⟩

end AmplifyPipeline
